import Mathlib

/-!
Verification of the yoink bulk file retriever against its design notes.

The Lean definitions below are a shallow embedding of the Python sources:
pure data manipulation becomes Lean functions on inductive data, exceptions
become an explicit error sum type threaded through Except, and the pieces of
process state the code touches (filesystem sizes, umask, network-call count)
become an explicit World record passed and returned.
-/

namespace Yoink

/-- RetrievalMode enum from utilities.py: how a file is retrieved,
via streaming or via direct copy (plugin). -/
inductive RetrievalMode
  | stream
  | copy
deriving DecidableEq, Repr

/-- Value of the Cluster.DSOC enum member in utilities.py. -/
def clusterDSOC : String := "DSOC"

/-- Python exception kinds raised by the code paths modelled here.
Custom exception classes are in errors.py; nameError, typeError and
attributeError model the built-in exceptions the interpreter raises. -/
inductive PyError
  | valueError
  | fileExists
  | fileError (msg : String)
  | sizeMismatch
  | ngasServiceError
  | missingSettings
  | connectionError
  | nameError
  | typeError
  | attributeError
deriving DecidableEq, Repr

/-- The server entry of a file spec in the locations report
(the inner server dict of the JSON schema). The retrieve_method
key is absent until _add_retrieve_method_field sets it, hence Option. -/
structure ServerRef where
  server : String
  location : String
  cluster : String
  retrieve_method : Option RetrievalMode := none
deriving DecidableEq, Repr

/-- One file entry of the locations report (the FILE_SPEC_KEYS schema). -/
structure FileSpec where
  ngas_file_id : String
  subdirectory : Option String
  relative_path : String
  checksum : String
  checksum_type : String
  version : Int
  size : Nat
  server : ServerRef
deriving DecidableEq, Repr

/-- The files report: the JSON document with a files array. -/
structure FilesReport where
  files : List FileSpec
deriving DecidableEq, Repr

/-- LocationsReport._filter_sdm_only: when sdm_only is requested, keep only
the files whose relative_path ends in .bin or .xml. -/
def filter_sdm_only (sdm_only : Bool) (report : FilesReport) : FilesReport :=
  if sdm_only then
    { report with files := report.files.filter (fun file_spec =>
        file_spec.relative_path.endsWith ".bin" ||
        file_spec.relative_path.endsWith ".xml") }
  else report

/-- Python str() applied to the execution_site setting. The settings read by
get_capo_settings are strings, and str applied to a str is the identity. -/
def strExecSite (exec_site : String) : String := exec_site

/-- LocationsReport._add_retrieve_method_field: set retrieve_method to COPY
when the cluster is DSOC and the location matches the execution site
(the source compares against both exec_site and str of exec_site),
otherwise to STREAM. -/
def add_retrieve_method_field (exec_site : String) (report : FilesReport) :
    FilesReport :=
  { report with files := report.files.map (fun file_spec =>
      if file_spec.server.cluster = clusterDSOC ∧
          (file_spec.server.location = exec_site ∨
           file_spec.server.location = strExecSite exec_site) then
        { file_spec with server :=
            { file_spec.server with retrieve_method := some RetrievalMode.copy } }
      else
        { file_spec with server :=
            { file_spec.server with retrieve_method := some RetrievalMode.stream } }) }

/-- LocationsReport._get_files_report. The two possible report sources are
passed in as the values that reading the location file and querying the
location service would produce; the body mirrors the source: the file
report is loaded when a location file is given, and then overwritten by
the service report when a product locator is also given. -/
def get_files_report (product_locator location_file : Option String)
    (sdm_only : Bool) (exec_site : String)
    (report_from_file report_from_service : FilesReport) :
    Except PyError FilesReport :=
  if product_locator = none ∧ location_file = none then
    Except.error PyError.valueError
  else
    let result : FilesReport := { files := [] }
    let result := if location_file ≠ none then report_from_file else result
    let result := if product_locator ≠ none then report_from_service else result
    let result := if sdm_only then filter_sdm_only sdm_only result else result
    Except.ok (add_retrieve_method_field exec_site result)

/-- One value of the servers report mapping built by _get_servers_report:
location, cluster and retrieve method of the server plus its files. -/
structure ServerEntry where
  location : String
  cluster : String
  retrieve_method : RetrievalMode
  files : List FileSpec
deriving DecidableEq, Repr

/-- The servers report: mapping from server host to its entry, as an
association list in insertion order. -/
abbrev ServersReport := List (String × ServerEntry)

/-- One bucket of work built by ParallelProductFetcher._bucketize_files. -/
structure Bucket where
  server : String
  retrieve_method : RetrievalMode
  files : List FileSpec
deriving DecidableEq, Repr

/-- The round-robin loop inside _bucketize_files: starting from the given
bucket contents and file index i, append each file to bucket (i mod n). -/
def distribute_files (n : Nat) :
    List (List FileSpec) → Nat → List FileSpec → List (List FileSpec)
  | buckets, _, [] => buckets
  | buckets, i, file_spec :: rest =>
      distribute_files n
        (buckets.set (i % n) (buckets.getD (i % n) [] ++ [file_spec]))
        (i + 1) rest

/-- The per-server part of _bucketize_files before empty buckets are
trimmed: allocate threads_per_host empty buckets and distribute the files
round-robin, the index starting at zero. -/
def allocate_and_distribute (threads_per_host : Nat) (files : List FileSpec) :
    List (List FileSpec) :=
  distribute_files threads_per_host (List.replicate threads_per_host []) 0 files

/-- The per-server part of _bucketize_files: fill the buckets for one server
and trim out every bucket with no files. -/
def bucketize_server (threads_per_host : Nat) (host : String)
    (entry : ServerEntry) : List Bucket :=
  ((allocate_and_distribute threads_per_host entry.files).map
      (fun files => Bucket.mk host entry.retrieve_method files)).filter
    (fun bucket => bucket.files.length > 0)

/-- ParallelProductFetcher._bucketize_files: build the buckets of every
server of the servers report and collect them into one list. -/
def bucketize_files (threads_per_host : Nat) (servers_report : ServersReport) :
    List Bucket :=
  servers_report.foldl
    (fun result entry => result ++ bucketize_server threads_per_host entry.1 entry.2)
    []

/-- ParallelProductFetcher._count_files_expected: total number of files
across the servers report. -/
def count_files_expected (servers_report : ServersReport) : Nat :=
  servers_report.foldl (fun count entry => count + entry.2.files.length) 0

/-- Specification helper for the round-robin placement: the files of F whose
index is congruent to j modulo n, in listing order, the index starting at i. -/
def round_robin_slice (n j : Nat) : Nat → List FileSpec → List FileSpec
  | _, [] => []
  | i, file_spec :: rest =>
      if i % n = j then file_spec :: round_robin_slice n j (i + 1) rest
      else round_robin_slice n j (i + 1) rest

/-- MAX_TRIES constant from utilities.py. -/
def MAX_TRIES : Nat := 10

/-- SLEEP_INTERVAL_SECONDS constant from utilities.py. -/
def SLEEP_INTERVAL_SECONDS : Nat := 2

/-- Outcome of one invocation of the function wrapped by the Retryer:
the function returns a value (truthy or falsy) or raises an exception. -/
inductive AttemptOutcome
  | ret (truthy : Bool)
  | raises (e : PyError)
deriving DecidableEq, Repr

/-- Exception classes caught by the except clause of Retryer.retry:
NGASServiceErrorException and SizeMismatchException. -/
def retriable : PyError → Bool
  | PyError.ngasServiceError => true
  | PyError.sizeMismatch => true
  | _ => false

instance {ε α : Type} [DecidableEq ε] [DecidableEq α] : DecidableEq (Except ε α) :=
  fun a b =>
    match a, b with
    | Except.ok a, Except.ok b =>
        if h : a = b then isTrue (by rw [h]) else isFalse (by simp [h])
    | Except.error a, Except.error b =>
        if h : a = b then isTrue (by rw [h]) else isFalse (by simp [h])
    | Except.ok _, Except.error _ => isFalse (by simp)
    | Except.error _, Except.ok _ => isFalse (by simp)

/-- Observable result of Retryer.retry: the final num_tries counter, the
number of sleeps performed, and whether the call returned or raised. -/
structure RetryResult where
  num_tries : Nat
  sleeps : Nat
  outcome : Except PyError Unit
deriving DecidableEq, Repr

/-- The while loop of Retryer.retry. The wrapped function takes the attempt
number (the value of num_tries at the call) and the ambient state, and
num_tries counts its invocations: the counter is incremented immediately
before the single call site. The loop runs while num_tries is below
max_tries and the call has not completed; since num_tries grows by one per
iteration, the remaining iteration count max_tries - num_tries is carried
as structural fuel. A truthy return sets complete and the loop exits; a
falsy return reaches the log call that reads the unbound variable exc
(a NameError) when tries remain, and otherwise raises
NGASServiceErrorException, which the except clause re-raises; a retriable
exception sleeps and loops when tries remain and is re-raised on the last
try; any other exception propagates at once. -/
def retry_go {σ : Type} (f : Nat → σ → σ × AttemptOutcome) (max_tries : Nat) :
    Nat → Nat → Nat → σ → σ × RetryResult
  | 0, num_tries, sleeps, s => (s, ⟨num_tries, sleeps, Except.ok ()⟩)
  | fuel + 1, num_tries, sleeps, s =>
    if num_tries < max_tries then
      match f (num_tries + 1) s with
      | (s1, AttemptOutcome.ret true) =>
          (s1, ⟨num_tries + 1, sleeps, Except.ok ()⟩)
      | (s1, AttemptOutcome.ret false) =>
          if num_tries + 1 < max_tries then
            (s1, ⟨num_tries + 1, sleeps, Except.error PyError.nameError⟩)
          else
            (s1, ⟨num_tries + 1, sleeps, Except.error PyError.ngasServiceError⟩)
      | (s1, AttemptOutcome.raises e) =>
          if retriable e then
            if num_tries + 1 < max_tries then
              retry_go f max_tries fuel (num_tries + 1) (sleeps + 1) s1
            else (s1, ⟨num_tries + 1, sleeps, Except.error e⟩)
          else (s1, ⟨num_tries + 1, sleeps, Except.error e⟩)
    else (s, ⟨num_tries, sleeps, Except.ok ()⟩)

/-- Retryer.retry on a freshly constructed Retryer: num_tries starts at
zero and complete at False. -/
def retry {σ : Type} (f : Nat → σ → σ × AttemptOutcome) (max_tries : Nat)
    (s : σ) : σ × RetryResult :=
  retry_go f max_tries max_tries 0 0 s

/-- The pieces of process and machine state that NGASFileRetriever touches:
sizes of files on disk (none meaning the path does not exist), the state of
the destination parent directory, whether mkdir would raise OSError, the
process umask, and a count of HTTP requests issued. -/
structure World where
  fs : String → Option Nat
  basedir_is_dir : Bool
  basedir_writable : Bool
  mkdir_raises : Bool
  umask : Nat
  net_calls : Nat
  mkdir_calls : Nat

/-- Command line arguments consumed by NGASFileRetriever. -/
structure Args where
  dry_run : Bool
  force : Bool
  output_dir : String

/-- NGASFileRetriever._get_destination: output_dir joined with the optional
subdirectory and the relative path. -/
def get_destination (output_dir : String) (file_spec : FileSpec) : String :=
  match file_spec.subdirectory with
  | none => output_dir ++ "/" ++ file_spec.relative_path
  | some sub => output_dir ++ "/" ++ sub ++ "/" ++ file_spec.relative_path

/-- NGASFileRetriever._make_basedir. Outside a dry run: raise
FileErrorException when the parent directory exists but is not writable;
otherwise clear the process umask, create the directory recursively, and
set the umask back. The source has no try/finally here, so when mkdir
raises OSError the umask write-back on the next line is skipped and the
umask stays cleared while FileErrorException propagates. -/
def make_basedir (dry_run : Bool) (w : World) : World × Except PyError Unit :=
  if dry_run = false then
    if w.basedir_is_dir ∧ w.basedir_writable = false then
      (w, Except.error (PyError.fileError "output directory is not writable"))
    else
      let saved := w.umask
      let w1 : World := { w with umask := 0 }
      let w2 : World := { w1 with mkdir_calls := w1.mkdir_calls + 1 }
      if w2.mkdir_raises then
        (w2, Except.error
          (PyError.fileError "failure trying to create output directory"))
      else
        ({ w2 with umask := saved }, Except.ok ())
  else (w, Except.ok ())

/-- NGASFileRetriever._check_result. Outside a dry run: the destination
must exist, else NGASServiceErrorException; its size on disk must equal
the size declared in the file spec, else SizeMismatchException. -/
def check_result (dry_run : Bool) (w : World) (destination : String)
    (file_spec : FileSpec) : Except PyError Unit :=
  if dry_run = false then
    match w.fs destination with
    | none => Except.error PyError.ngasServiceError
    | some size_on_disk =>
        if file_spec.size ≠ size_on_disk then Except.error PyError.sizeMismatch
        else Except.ok ()
  else Except.ok ()

/-- Behaviour of the storage server on one RETRIEVE request: the connection
fails, or a response arrives with a status code and a body of so many
bytes. -/
inductive StreamNet
  | connError
  | response (status : Nat) (body_bytes : Nat)
deriving DecidableEq, Repr

/-- NGASFileRetriever._streaming_fetch for one attempt. Outside a dry run
the request is issued and the body is written to the destination in chunks,
so the file on disk ends up with exactly the bytes the response carried;
zero bytes written raise FileErrorException, a byte count different from
the declared size raises SizeMismatchException, and then a non-200 status
raises NGASServiceErrorException; a connection fault is mapped to
NGASServiceErrorException. On success and on a dry run the function
returns True. -/
def streaming_fetch (dry_run : Bool) (net : Nat → StreamNet)
    (destination : String) (file_spec : FileSpec)
    (attempt : Nat) (w : World) : World × AttemptOutcome :=
  if dry_run = false then
    let w1 : World := { w with net_calls := w.net_calls + 1 }
    match net attempt with
    | StreamNet.connError => (w1, AttemptOutcome.raises PyError.ngasServiceError)
    | StreamNet.response status body_bytes =>
        let w2 : World := { w1 with fs := fun p =>
          if p = destination then some body_bytes else w1.fs p }
        if body_bytes = 0 then
          (w2, AttemptOutcome.raises (PyError.fileError "was not retrieved"))
        else if body_bytes ≠ file_spec.size then
          (w2, AttemptOutcome.raises PyError.sizeMismatch)
        else if status ≠ 200 then
          (w2, AttemptOutcome.raises PyError.ngasServiceError)
        else (w2, AttemptOutcome.ret true)
  else (w, AttemptOutcome.ret true)

/-- NGASFileRetriever._copying_fetch for one attempt. Outside a dry run the
request is issued; a non-200 status raises NGASServiceErrorException; there
is no handler for connection faults, so those propagate as the raw requests
exception; the bytes are placed by the server side plugin, which this model
does not observe. On success and on a dry run the function returns True. -/
def copying_fetch (dry_run : Bool) (net : Nat → StreamNet)
    (attempt : Nat) (w : World) : World × AttemptOutcome :=
  if dry_run = false then
    let w1 : World := { w with net_calls := w.net_calls + 1 }
    match net attempt with
    | StreamNet.connError => (w1, AttemptOutcome.raises PyError.connectionError)
    | StreamNet.response status _ =>
        if status ≠ 200 then
          (w1, AttemptOutcome.raises PyError.ngasServiceError)
        else (w1, AttemptOutcome.ret true)
  else (w, AttemptOutcome.ret true)

/-- The Retryer configuration used by NGASFileRetriever.retrieve: for either
retrieval mode the Retryer is built with MAX_TRIES and
SLEEP_INTERVAL_SECONDS from utilities.py. -/
def retrieve_retryer_config (_retrieve_method : RetrievalMode) : Nat × Nat :=
  (MAX_TRIES, SLEEP_INTERVAL_SECONDS)

/-- The fetch primitive NGASFileRetriever.retrieve selects for the Retryer:
the copying fetch for COPY and the streaming fetch otherwise. -/
def retrieve_func (args : Args) (net : Nat → StreamNet)
    (retrieve_method : RetrievalMode) (file_spec : FileSpec) :
    Nat → World → World × AttemptOutcome :=
  fun attempt s =>
    match retrieve_method with
    | RetrievalMode.copy => copying_fetch args.dry_run net attempt s
    | RetrievalMode.stream =>
        streaming_fetch args.dry_run net
          (get_destination args.output_dir file_spec) file_spec attempt s

/-- NGASFileRetriever.retrieve: destination check, basedir creation, the
mode-specific fetch primitive wrapped in the Retryer, then the result
check; the destination path is returned on success. -/
def retrieve (args : Args) (net : Nat → StreamNet)
    (retrieve_method : RetrievalMode) (file_spec : FileSpec) (w : World) :
    World × Except PyError String :=
  if (w.fs (get_destination args.output_dir file_spec)).isSome ∧
      args.force = false ∧ args.dry_run = false then
    (w, Except.error PyError.fileExists)
  else
    match make_basedir args.dry_run w with
    | (w1, Except.error e) => (w1, Except.error e)
    | (w1, Except.ok _) =>
        match retry (retrieve_func args net retrieve_method file_spec)
            (retrieve_retryer_config retrieve_method).1 w1 with
        | (w2, result) =>
          match result.outcome with
          | Except.error e => (w2, Except.error e)
          | Except.ok _ =>
              match check_result args.dry_run w2
                  (get_destination args.output_dir file_spec) file_spec with
              | Except.error e => (w2, Except.error e)
              | Except.ok _ =>
                  (w2, Except.ok (get_destination args.output_dir file_spec))

/-- BaseProductFetcher.retrieve_files, restricted to the run where every
retrieval succeeds: the destination paths appended to the shared retrieved
list, in file order. The return value of the method is the length of the
file list. -/
def retrieve_files_paths (output_dir : String) (file_specs : List FileSpec) :
    List String :=
  file_specs.map (get_destination output_dir)

/-- ParallelProductFetcher.fetch_bucket. The body calls retrieve_files,
whose paths go to the shared retrieved list, but the method itself has no
return statement, so its value is None: the count that retrieve_files
returned is dropped. -/
def fetch_bucket_result (output_dir : String) (bucket : Bucket) :
    List String × Option Nat :=
  (retrieve_files_paths output_dir bucket.files, none)

/-- The aggregation loop of ParallelProductFetcher.run, granting each loop
step the value fetch_bucket returned for one bucket: num_files_retrieved is
increased by that value, which is a typeError when the value is None, and
after each addition the sum is compared against num_files_expected, raising
NGASServiceErrorException already inside the loop on any difference. -/
def run_loop (expected : Nat) : Nat → List (Option Nat) → Except PyError Nat
  | acc, [] => Except.ok acc
  | _, none :: _ => Except.error PyError.typeError
  | acc, some n :: rest =>
      if acc + n ≠ expected then Except.error PyError.ngasServiceError
      else run_loop expected (acc + n) rest

/-- ParallelProductFetcher.run: bucketize the servers report, fetch every
bucket, aggregate the per-bucket values with run_loop against the expected
count, and return the shared retrieved list on success. -/
def ppf_run (threads_per_host : Nat) (output_dir : String)
    (servers_report : ServersReport) : Except PyError (List String) :=
  let buckets := bucketize_files threads_per_host servers_report
  let expected := count_files_expected servers_report
  let retrieved :=
    (buckets.map (fun bucket => (fetch_bucket_result output_dir bucket).1)).flatten
  match run_loop expected 0
      (buckets.map (fun bucket => (fetch_bucket_result output_dir bucket).2)) with
  | Except.ok _ => Except.ok retrieved
  | Except.error e => Except.error e

/-- Sample server co-located with a DSOC execution site. -/
def sample_server_dsoc : ServerRef :=
  { server := "nm01:7777", location := "DSOC", cluster := "DSOC" }

/-- Sample server on a different cluster and site. -/
def sample_server_remote : ServerRef :=
  { server := "na02:7777", location := "NAASC", cluster := "NAASC" }

/-- Sample metadata file spec served by the DSOC server. -/
def sample_spec_xml : FileSpec :=
  { ngas_file_id := "f1.xml", subdirectory := none, relative_path := "ASDM.xml",
    checksum := "-1", checksum_type := "ngamsGenCrc32", version := 1, size := 5,
    server := sample_server_dsoc }

/-- Sample bulk file spec served by the remote server. -/
def sample_spec_tar : FileSpec :=
  { ngas_file_id := "f2.tar", subdirectory := some "sub",
    relative_path := "b.tar",
    checksum := "-2", checksum_type := "ngamsGenCrc32", version := 1, size := 7,
    server := sample_server_remote }

/-- Third sample file spec, for round-robin distribution inputs. -/
def sample_spec_bin : FileSpec :=
  { ngas_file_id := "f3.bin", subdirectory := none,
    relative_path := "Antenna.bin",
    checksum := "-3", checksum_type := "ngamsGenCrc32", version := 1, size := 9,
    server := sample_server_dsoc }

/-- Sample world: nothing on disk, parent directory absent but creatable,
ordinary umask. -/
def sample_world_empty : World :=
  { fs := fun _ => none, basedir_is_dir := false, basedir_writable := true,
    mkdir_raises := false, umask := 18, net_calls := 0, mkdir_calls := 0 }

/-- Sample world where the destination of sample_spec_xml under output
directory out already holds a 3 byte file. -/
def sample_world_exists : World :=
  { sample_world_empty with
    fs := fun p => if p = "out/ASDM.xml" then some 3 else none }

/-- Sample world where the parent directory exists and mkdir raises
OSError. -/
def sample_world_mkdir_fails : World :=
  { sample_world_empty with basedir_is_dir := true, mkdir_raises := true }

/-- Sample world where the parent directory exists but is not writable. -/
def sample_world_unwritable : World :=
  { sample_world_empty with basedir_is_dir := true, basedir_writable := false }

/-- Sample world where the parent directory exists and is writable. -/
def sample_world_ok : World :=
  { sample_world_empty with basedir_is_dir := true }

/-- Sample servers report entry with three files on one server. -/
def sample_entry : ServerEntry :=
  { location := "DSOC", cluster := "DSOC",
    retrieve_method := RetrievalMode.stream,
    files := [sample_spec_xml, sample_spec_tar, sample_spec_bin] }

/-- Sample servers report with two servers holding one file each. -/
def sample_servers_report : ServersReport :=
  [("nm01:7777",
    { location := "DSOC", cluster := "DSOC",
      retrieve_method := RetrievalMode.stream, files := [sample_spec_xml] }),
   ("nm02:7777",
    { location := "DSOC", cluster := "DSOC",
      retrieve_method := RetrievalMode.stream, files := [sample_spec_tar] })]

section RetryerLemmas

variable {σ : Type}

lemma retry_go_num_tries_le (f : Nat → σ → σ × AttemptOutcome) (max_tries : Nat) :
    ∀ (fuel num_tries sleeps : Nat) (s : σ), num_tries ≤ max_tries →
      (retry_go f max_tries fuel num_tries sleeps s).2.num_tries ≤ max_tries := by
  intro fuel
  induction fuel with
  | zero => intro nt sl s h; simpa [retry_go] using h
  | succ fuel ih =>
    intro nt sl s h
    by_cases hlt : nt < max_tries
    · simp only [retry_go, if_pos hlt]
      rcases hfs : f (nt + 1) s with ⟨s1, out⟩
      cases out with
      | ret truthy =>
          cases truthy
          · by_cases h2 : nt + 1 < max_tries <;> simp [h2] <;> omega
          · simpa using hlt
      | raises e =>
          by_cases hr : retriable e
          · by_cases h2 : nt + 1 < max_tries
            · simp only [hr, if_true, h2]
              exact ih (nt + 1) (sl + 1) s1 (by omega)
            · simp [hr, h2]; omega
          · simp [hr]; omega
    · simp only [retry_go, if_neg hlt]
      exact h

lemma retry_go_full_failure (f : Nat → σ → σ × AttemptOutcome) (max_tries : Nat)
    (e : Nat → PyError) (he : ∀ j, retriable (e j) = true)
    (hf : ∀ j s', (f j s').2 = AttemptOutcome.raises (e j)) :
    ∀ (fuel num_tries sleeps : Nat) (s : σ),
      num_tries + fuel = max_tries → num_tries < max_tries →
      (retry_go f max_tries fuel num_tries sleeps s).2
        = ⟨max_tries, sleeps + (max_tries - 1 - num_tries),
            Except.error (e max_tries)⟩ := by
  intro fuel
  induction fuel with
  | zero => intro nt sl s hsum hlt; omega
  | succ fuel ih =>
    intro nt sl s hsum hlt
    simp only [retry_go, if_pos hlt]
    rcases hfs : f (nt + 1) s with ⟨s1, out⟩
    have hout : out = AttemptOutcome.raises (e (nt + 1)) := by
      have := hf (nt + 1) s
      rw [hfs] at this
      exact this
    subst hout
    simp only [he (nt + 1), if_true]
    by_cases h2 : nt + 1 < max_tries
    · simp only [if_pos h2]
      rw [ih (nt + 1) (sl + 1) s1 (by omega) h2]
      have : sl + 1 + (max_tries - 1 - (nt + 1)) = sl + (max_tries - 1 - nt) := by
        omega
      rw [this]
    · simp only [if_neg h2]
      have hnt : nt + 1 = max_tries := by omega
      have hsl : max_tries - 1 - nt = 0 := by omega
      simp [hnt, hsl]

lemma retry_go_success_at (f : Nat → σ → σ × AttemptOutcome) (max_tries k : Nat)
    (e : Nat → PyError) (he : ∀ j, retriable (e j) = true) (hk : k ≤ max_tries)
    (hb : ∀ j s', 1 ≤ j → j < k → (f j s').2 = AttemptOutcome.raises (e j))
    (hs : ∀ s', (f k s').2 = AttemptOutcome.ret true) :
    ∀ (fuel num_tries sleeps : Nat) (s : σ),
      num_tries + fuel = max_tries → num_tries < k →
      (retry_go f max_tries fuel num_tries sleeps s).2
        = ⟨k, sleeps + (k - 1 - num_tries), Except.ok ()⟩ := by
  intro fuel
  induction fuel with
  | zero => intro nt sl s hsum hlt; omega
  | succ fuel ih =>
    intro nt sl s hsum hlt
    have hltm : nt < max_tries := by omega
    simp only [retry_go, if_pos hltm]
    rcases hfs : f (nt + 1) s with ⟨s1, out⟩
    by_cases hek : nt + 1 = k
    · have hout : out = AttemptOutcome.ret true := by
        have := hs s
        rw [← hek, hfs] at this
        exact this
      subst hout
      have hsl : k - 1 - nt = 0 := by omega
      simp [hek, hsl]
    · have hout : out = AttemptOutcome.raises (e (nt + 1)) := by
        have := hb (nt + 1) s (by omega) (by omega)
        rw [hfs] at this
        exact this
      subst hout
      simp only [he (nt + 1), if_true]
      have h2 : nt + 1 < max_tries := by omega
      simp only [if_pos h2]
      rw [ih (nt + 1) (sl + 1) s1 (by omega) (by omega)]
      have : sl + 1 + (k - 1 - (nt + 1)) = sl + (k - 1 - nt) := by omega
      rw [this]

end RetryerLemmas

/-- C4: For every wrapped function and max_tries at least 1, Retryer.retry
invokes the wrapped function at most max_tries times (num_tries counts the
invocations: it is incremented exactly once, right before the single call
site); and when every invocation raises a retriable error, the loop sleeps
exactly max_tries - 1 times and re-raises the error observed on the last
attempt. -/
theorem c4_retryer_bounded {σ : Type} (f : Nat → σ → σ × AttemptOutcome)
    (max_tries : Nat) (s : σ) (hmt : 1 ≤ max_tries) :
    (retry f max_tries s).2.num_tries ≤ max_tries ∧
    (∀ e : Nat → PyError, (∀ j, retriable (e j) = true) →
      (∀ j s', (f j s').2 = AttemptOutcome.raises (e j)) →
      (retry f max_tries s).2
        = ⟨max_tries, max_tries - 1, Except.error (e max_tries)⟩) := by
  constructor
  · exact retry_go_num_tries_le f max_tries max_tries 0 0 s (by omega)
  · intro e he hf
    have := retry_go_full_failure f max_tries e he hf max_tries 0 0 s
      (by omega) (by omega)
    simpa using this

/-- Witness for C4 at a concrete wrapped function that always raises
SizeMismatchException, with max_tries 3: at most 3 invocations, and the
full-failure run stops after exactly 3 tries, 2 sleeps, re-raising it. -/
theorem c4_retryer_bounded_witness :
    1 ≤ 3 ∧
    (retry (fun _ (s : Unit) => (s, AttemptOutcome.raises PyError.sizeMismatch))
        3 ()).2.num_tries ≤ 3 ∧
    (retry (fun _ (s : Unit) => (s, AttemptOutcome.raises PyError.sizeMismatch))
        3 ()).2
      = ⟨3, 2, Except.error PyError.sizeMismatch⟩ := by
  refine ⟨by decide, ?_, ?_⟩
  · exact (c4_retryer_bounded
      (fun _ (s : Unit) => (s, AttemptOutcome.raises PyError.sizeMismatch))
      3 () (by decide)).1
  · exact (c4_retryer_bounded
      (fun _ (s : Unit) => (s, AttemptOutcome.raises PyError.sizeMismatch))
      3 () (by decide)).2 (fun _ => PyError.sizeMismatch)
      (fun _ => rfl) (fun _ _ => rfl)

/-- C5 counterexample: a wrapped function that returns None (a falsy value)
on every attempt, run under the production MAX_TRIES. The claim says such
an attempt is a success and retry completes without raising; in the code
the falsy branch reads the unbound variable exc, so the call raises
NameError on the very first attempt instead of completing. -/
theorem c5_counterexample :
    (retry (fun _ (s : Unit) => (s, AttemptOutcome.ret false)) MAX_TRIES ()).2.outcome
      = Except.error PyError.nameError ∧
    (retry (fun _ (s : Unit) => (s, AttemptOutcome.ret false)) 1 ()).2.outcome
      = Except.error PyError.ngasServiceError := by
  exact ⟨by decide, by decide⟩

/-- C5 as amended: an attempt that returns a truthy value is a success that
short-circuits the remaining attempts, and retry completes without raising;
a falsy return such as None is instead treated as a failure. -/
theorem c5_truthy_short_circuit {σ : Type} (f : Nat → σ → σ × AttemptOutcome)
    (max_tries k : Nat) (s : σ) (e : Nat → PyError)
    (hk1 : 1 ≤ k) (hk : k ≤ max_tries)
    (he : ∀ j, retriable (e j) = true)
    (hb : ∀ j s', 1 ≤ j → j < k → (f j s').2 = AttemptOutcome.raises (e j))
    (hs : ∀ s', (f k s').2 = AttemptOutcome.ret true) :
    (retry f max_tries s).2 = ⟨k, k - 1, Except.ok ()⟩ := by
  have := retry_go_success_at f max_tries k e he hk hb hs max_tries 0 0 s
    (by omega) (by omega)
  simpa using this

/-- Witness for C5 as amended: a function whose first attempt returns True
under max_tries 10 completes at once, without sleeping and without
raising. -/
theorem c5_truthy_short_circuit_witness :
    1 ≤ 1 ∧ 1 ≤ 10 ∧
    (retry (fun _ (s : Unit) => (s, AttemptOutcome.ret true)) 10 ()).2
      = ⟨1, 0, Except.ok ()⟩ := by
  refine ⟨by decide, by decide, ?_⟩
  exact c5_truthy_short_circuit
    (fun _ (s : Unit) => (s, AttemptOutcome.ret true)) 10 1 ()
    (fun _ => PyError.sizeMismatch) (by decide) (by decide)
    (fun _ => rfl) (fun j s' h1 h2 => absurd (lt_of_le_of_lt h1 h2)
      (by omega)) (fun _ => rfl)

/-- C6 counterexample: the sleep interval both fetch primitives hand to the
Retryer is SLEEP_INTERVAL_SECONDS = 2 seconds, not the 1 second the claim
states. -/
theorem c6_counterexample :
    (retrieve_retryer_config RetrievalMode.stream).2 = 2 ∧
    (retrieve_retryer_config RetrievalMode.copy).2 = 2 ∧
    ((retrieve_retryer_config RetrievalMode.stream).2 = 1 → False) := by
  decide

/-- C6 as amended: both fetch primitives are wrapped by the Retryer
configured with MAX_TRIES equal to 10 and a sleep interval of 2 seconds
between attempts. -/
theorem c6_retryer_config (retrieve_method : RetrievalMode) :
    retrieve_retryer_config retrieve_method = (10, 2) ∧
    MAX_TRIES = 10 ∧ SLEEP_INTERVAL_SECONDS = 2 := by
  cases retrieve_method <;> exact ⟨rfl, rfl, rfl⟩

/-- C3: after annotation, every file spec of the files report carries
retrieve_method COPY exactly when its server cluster is DSOC and its server
location equals the execution site setting, and otherwise carries STREAM.
The second disjunct of the source comparison, location = str of exec_site,
coincides with the first for the string-valued settings. -/
theorem c3_retrieve_method_rule (exec_site : String) (report : FilesReport)
    (file_spec : FileSpec)
    (h : file_spec ∈ (add_retrieve_method_field exec_site report).files) :
    (file_spec.server.retrieve_method = some RetrievalMode.copy ↔
      (file_spec.server.cluster = "DSOC" ∧
        file_spec.server.location = exec_site)) ∧
    (¬ (file_spec.server.cluster = "DSOC" ∧
        file_spec.server.location = exec_site) →
      file_spec.server.retrieve_method = some RetrievalMode.stream) := by
  unfold add_retrieve_method_field at h
  simp only [List.mem_map] at h
  obtain ⟨g, hg, hfe⟩ := h
  subst hfe
  by_cases hc : g.server.cluster = clusterDSOC ∧
      (g.server.location = exec_site ∨ g.server.location = strExecSite exec_site)
  · rw [if_pos hc]
    have hcond : g.server.cluster = "DSOC" ∧ g.server.location = exec_site := by
      refine ⟨hc.1, ?_⟩
      rcases hc.2 with h2 | h2 <;> exact h2
    exact ⟨⟨fun _ => hcond, fun _ => rfl⟩, fun hn => absurd hcond hn⟩
  · rw [if_neg hc]
    refine ⟨⟨fun habs => ?_, fun hcond => ?_⟩, fun _ => rfl⟩
    · simp at habs
    · exact absurd ⟨hcond.1, Or.inl hcond.2⟩ hc

/-- Witness for C3 on a concrete two-file report annotated with execution
site DSOC: the annotated DSOC-local file carries COPY and satisfies the
rule. -/
theorem c3_retrieve_method_rule_witness :
    ({ sample_spec_xml with server :=
        { sample_server_dsoc with retrieve_method := some RetrievalMode.copy } }
      ∈ (add_retrieve_method_field "DSOC"
          { files := [sample_spec_xml, sample_spec_tar] }).files) ∧
    (({ sample_spec_xml with server :=
        { sample_server_dsoc with retrieve_method := some RetrievalMode.copy }
        : FileSpec }.server.retrieve_method = some RetrievalMode.copy ↔
      ({ sample_spec_xml with server :=
        { sample_server_dsoc with retrieve_method := some RetrievalMode.copy }
        : FileSpec }.server.cluster = "DSOC" ∧
       { sample_spec_xml with server :=
        { sample_server_dsoc with retrieve_method := some RetrievalMode.copy }
        : FileSpec }.server.location = "DSOC")) ∧
     (¬ ({ sample_spec_xml with server :=
        { sample_server_dsoc with retrieve_method := some RetrievalMode.copy }
        : FileSpec }.server.cluster = "DSOC" ∧
       { sample_spec_xml with server :=
        { sample_server_dsoc with retrieve_method := some RetrievalMode.copy }
        : FileSpec }.server.location = "DSOC") →
      { sample_spec_xml with server :=
        { sample_server_dsoc with retrieve_method := some RetrievalMode.copy }
        : FileSpec }.server.retrieve_method = some RetrievalMode.stream)) := by
  refine ⟨by decide, ?_⟩
  exact c3_retrieve_method_rule "DSOC"
    { files := [sample_spec_xml, sample_spec_tar] } _ (by decide)

/-- C10: when both a product locator and a location file are given, the
files report that feeds the pipeline is the one the location service
returned: the report read from the file is bound first and then overwritten
unread, for every possible file content. -/
theorem c10_service_precedence (locator file_path : String) (sdm_only : Bool)
    (exec_site : String) (report_from_file report_from_service : FilesReport) :
    get_files_report (some locator) (some file_path) sdm_only exec_site
        report_from_file report_from_service
      = Except.ok (add_retrieve_method_field exec_site
          (filter_sdm_only sdm_only report_from_service)) := by
  cases sdm_only <;> simp [get_files_report, filter_sdm_only]

lemma check_result_ok_iff (w : World) (destination : String)
    (file_spec : FileSpec) :
    check_result false w destination file_spec = Except.ok () ↔
      w.fs destination = some file_spec.size := by
  unfold check_result
  cases h : w.fs destination with
  | none => simp [h]
  | some size_on_disk =>
      by_cases hs : file_spec.size = size_on_disk
      · simp [h, hs]
      · simp [h, hs]
        exact fun habs => hs habs.symm

lemma retrieve_ok_postcheck (args : Args) (net : Nat → StreamNet)
    (retrieve_method : RetrievalMode) (file_spec : FileSpec) (w : World)
    (d : String) (hok : (retrieve args net retrieve_method file_spec w).2
      = Except.ok d) :
    d = get_destination args.output_dir file_spec ∧
    check_result args.dry_run (retrieve args net retrieve_method file_spec w).1
      (get_destination args.output_dir file_spec) file_spec = Except.ok () := by
  unfold retrieve at hok ⊢
  by_cases hcond : (w.fs (get_destination args.output_dir file_spec)).isSome = true ∧
      args.force = false ∧ args.dry_run = false
  · rw [if_pos hcond] at hok
    simp at hok
  · rw [if_neg hcond] at hok ⊢
    split at hok
    · simp at hok
    · rename_i w1 u heqmb
      split at hok
      rename_i w2 result heqr
      split at hok
      · simp at hok
      · rename_i u2 hout
        split at hok
        · simp at hok
        · rename_i u3 hchk
          simp only [Except.ok.injEq] at hok
          exact ⟨hok.symm, hchk⟩

/-- C7: outside a dry run, retrieve returns successfully only when the
destination exists on disk with exactly the size the file spec declares;
in the streaming fetch a response whose body wrote zero bytes raises
FileErrorException with the not retrieved message and a body whose byte
count differs from the declared size raises SizeMismatchException; in the
postcheck a missing destination raises NGASServiceErrorException and a
size difference raises SizeMismatchException. -/
theorem c7_size_postconditions :
    (∀ (args : Args) (net : Nat → StreamNet) (retrieve_method : RetrievalMode)
        (file_spec : FileSpec) (w : World) (d : String),
        args.dry_run = false →
        (retrieve args net retrieve_method file_spec w).2 = Except.ok d →
        (retrieve args net retrieve_method file_spec w).1.fs d
          = some file_spec.size) ∧
    (∀ (net : Nat → StreamNet) (destination : String) (file_spec : FileSpec)
        (attempt : Nat) (w : World) (status : Nat),
        net attempt = StreamNet.response status 0 →
        (streaming_fetch false net destination file_spec attempt w).2
          = AttemptOutcome.raises (PyError.fileError "was not retrieved")) ∧
    (∀ (net : Nat → StreamNet) (destination : String) (file_spec : FileSpec)
        (attempt : Nat) (w : World) (status body_bytes : Nat),
        net attempt = StreamNet.response status body_bytes →
        body_bytes ≠ 0 → body_bytes ≠ file_spec.size →
        (streaming_fetch false net destination file_spec attempt w).2
          = AttemptOutcome.raises PyError.sizeMismatch) ∧
    (∀ (w : World) (destination : String) (file_spec : FileSpec),
        w.fs destination = none →
        check_result false w destination file_spec
          = Except.error PyError.ngasServiceError) ∧
    (∀ (w : World) (destination : String) (file_spec : FileSpec)
        (size_on_disk : Nat),
        w.fs destination = some size_on_disk →
        file_spec.size ≠ size_on_disk →
        check_result false w destination file_spec
          = Except.error PyError.sizeMismatch) := by
  refine ⟨?_, ?_, ?_, ?_, ?_⟩
  · intro args net retrieve_method file_spec w d hdry hok
    obtain ⟨hd, hchk⟩ :=
      retrieve_ok_postcheck args net retrieve_method file_spec w d hok
    rw [hdry] at hchk
    subst hd
    exact (check_result_ok_iff _ _ _).mp hchk
  · intro net destination file_spec attempt w status hnet
    simp [streaming_fetch, hnet]
  · intro net destination file_spec attempt w status body_bytes hnet hb0 hbs
    simp [streaming_fetch, hnet, hb0, hbs]
  · intro w destination file_spec hfs
    simp [check_result, hfs]
  · intro w destination file_spec size_on_disk hfs hneq
    simp [check_result, hfs, hneq]

/-- Witness for C7 on concrete runs: a successful stream retrieval of the
5 byte sample file leaves a 5 byte destination; a zero byte body, a 4 byte
body, a missing destination, and a 3 byte file on disk produce the four
errors. -/
theorem c7_size_postconditions_witness :
    (retrieve ⟨false, false, "out"⟩ (fun _ => StreamNet.response 200 5)
        RetrievalMode.stream sample_spec_xml sample_world_ok).1.fs "out/ASDM.xml"
      = some sample_spec_xml.size ∧
    (streaming_fetch false (fun _ => StreamNet.response 200 0) "out/ASDM.xml"
        sample_spec_xml 1 sample_world_ok).2
      = AttemptOutcome.raises (PyError.fileError "was not retrieved") ∧
    (streaming_fetch false (fun _ => StreamNet.response 200 4) "out/ASDM.xml"
        sample_spec_xml 1 sample_world_ok).2
      = AttemptOutcome.raises PyError.sizeMismatch ∧
    check_result false sample_world_empty "out/ASDM.xml" sample_spec_xml
      = Except.error PyError.ngasServiceError ∧
    check_result false sample_world_exists "out/ASDM.xml" sample_spec_xml
      = Except.error PyError.sizeMismatch := by
  refine ⟨?_, ?_, ?_, ?_, ?_⟩
  · exact c7_size_postconditions.1 ⟨false, false, "out"⟩
      (fun _ => StreamNet.response 200 5) RetrievalMode.stream sample_spec_xml
      sample_world_ok "out/ASDM.xml" rfl (by decide)
  · exact c7_size_postconditions.2.1 (fun _ => StreamNet.response 200 0)
      "out/ASDM.xml" sample_spec_xml 1 sample_world_ok 200 rfl
  · exact c7_size_postconditions.2.2.1 (fun _ => StreamNet.response 200 4)
      "out/ASDM.xml" sample_spec_xml 1 sample_world_ok 200 4 rfl
      (by decide) (by decide)
  · exact c7_size_postconditions.2.2.2.1 sample_world_empty "out/ASDM.xml"
      sample_spec_xml rfl
  · exact c7_size_postconditions.2.2.2.2 sample_world_exists "out/ASDM.xml"
      sample_spec_xml 3 (by decide) (by decide)

/-- C8: when the destination already exists and neither force_overwrite nor
dry_run is set, retrieve raises FileExistsError before any network call,
and the world, in particular every file on disk, is unchanged. -/
theorem c8_preexisting_destination (args : Args) (net : Nat → StreamNet)
    (retrieve_method : RetrievalMode) (file_spec : FileSpec) (w : World)
    (hforce : args.force = false) (hdry : args.dry_run = false)
    (hexists : (w.fs (get_destination args.output_dir file_spec)).isSome
      = true) :
    retrieve args net retrieve_method file_spec w
      = (w, Except.error PyError.fileExists) ∧
    (retrieve args net retrieve_method file_spec w).1.net_calls = w.net_calls ∧
    (∀ p, (retrieve args net retrieve_method file_spec w).1.fs p = w.fs p) := by
  have hmain : retrieve args net retrieve_method file_spec w
      = (w, Except.error PyError.fileExists) := by
    unfold retrieve
    rw [if_pos ⟨hexists, hforce, hdry⟩]
  exact ⟨hmain, by rw [hmain], fun p => by rw [hmain]⟩

/-- Witness for C8: with a 3 byte file already at the destination and
neither force nor dry run, the concrete retrieval returns FileExistsError
with the world unchanged and no network call issued. -/
theorem c8_preexisting_destination_witness :
    retrieve ⟨false, false, "out"⟩ (fun _ => StreamNet.connError)
        RetrievalMode.stream sample_spec_xml sample_world_exists
      = (sample_world_exists, Except.error PyError.fileExists) ∧
    (retrieve ⟨false, false, "out"⟩ (fun _ => StreamNet.connError)
        RetrievalMode.stream sample_spec_xml sample_world_exists).1.net_calls
      = sample_world_exists.net_calls := by
  refine ⟨?_, ?_⟩
  · exact (c8_preexisting_destination ⟨false, false, "out"⟩
      (fun _ => StreamNet.connError) RetrievalMode.stream sample_spec_xml
      sample_world_exists rfl rfl (by decide)).1
  · exact (c8_preexisting_destination ⟨false, false, "out"⟩
      (fun _ => StreamNet.connError) RetrievalMode.stream sample_spec_xml
      sample_world_exists rfl rfl (by decide)).2.1

/-- C9: evaluation of _make_basedir at the failing input. When the parent
directory exists, is writable, and mkdir raises OSError, the call raises
FileErrorException after one creation attempt but leaves the process
umask cleared at 0 instead of restoring the saved value 18: the claim that
the umask is restored on every exit path fails on this path. The other
two parts hold: an unwritable existing parent raises FileErrorException
with the world untouched and no creation attempt, and the successful path
does restore the umask. -/
theorem c9_umask_leak_on_mkdir_failure :
    (make_basedir false sample_world_mkdir_fails).2
      = Except.error (PyError.fileError
          "failure trying to create output directory") ∧
    (make_basedir false sample_world_mkdir_fails).1.umask = 0 ∧
    sample_world_mkdir_fails.umask = 18 ∧
    (make_basedir false sample_world_mkdir_fails).1.mkdir_calls = 1 ∧
    make_basedir false sample_world_unwritable
      = (sample_world_unwritable,
          Except.error (PyError.fileError "output directory is not writable")) ∧
    sample_world_unwritable.mkdir_calls = 0 ∧
    (make_basedir false sample_world_ok).1.umask = 18 ∧
    (make_basedir false sample_world_ok).2 = Except.ok () := by
  exact ⟨rfl, rfl, rfl, rfl, rfl, rfl, rfl, rfl⟩

/-- C1: evaluation of ParallelProductFetcher.run at the failing input, a
servers report with two servers of one file each and one thread per host.
Every bucket hands back None because fetch_bucket drops the count that
retrieve_files returned, so the aggregation loop can never sum per-bucket
counts: its first addition already fails, and the specified comparison
against the expected total is unreachable. The last conjunct shows the
second defect: even granting the counts, the comparison sits inside the
loop, so with expected total 2 the run raises NGASServiceErrorException
right after the first bucket reports its single file, although all files
were retrieved. -/
theorem c1_aggregation_never_sums :
    ppf_run 1 "out" sample_servers_report = Except.error PyError.typeError ∧
    count_files_expected sample_servers_report = 2 ∧
    (bucketize_files 1 sample_servers_report).map
        (fun bucket => (fetch_bucket_result "out" bucket).2) = [none, none] ∧
    run_loop 2 0 [some 1, some 1] = Except.error PyError.ngasServiceError := by
  exact ⟨by decide, by decide, by decide, by decide⟩

section BucketizeLemmas

lemma getD_set_self (l : List (List FileSpec)) (i : Nat) (v : List FileSpec)
    (h : i < l.length) : (l.set i v).getD i [] = v := by
  rw [List.getD_eq_getElem _ _ (by simpa using h)]
  simp [h]

lemma getD_set_ne (l : List (List FileSpec)) (i j : Nat) (v : List FileSpec)
    (hij : i ≠ j) : (l.set i v).getD j [] = l.getD j [] := by
  by_cases hj : j < l.length
  · rw [List.getD_eq_getElem _ _ (by simpa using hj),
      List.getD_eq_getElem _ _ hj]
    exact List.getElem_set_ne hij _
  · have h1 : l.length ≤ j := Nat.le_of_not_lt hj
    rw [List.getD_eq_default _ _ (by simpa using h1),
      List.getD_eq_default _ _ h1]

lemma distribute_files_length (n : Nat) :
    ∀ (files : List FileSpec) (bs : List (List FileSpec)) (i : Nat),
      (distribute_files n bs i files).length = bs.length := by
  intro files
  induction files with
  | nil => intro bs i; rfl
  | cons f rest ih =>
    intro bs i
    rw [distribute_files, ih]
    exact List.length_set ..

lemma distribute_files_getD (n : Nat) :
    ∀ (files : List FileSpec) (bs : List (List FileSpec)) (i j : Nat),
      bs.length = n → j < n →
      (distribute_files n bs i files).getD j []
        = bs.getD j [] ++ round_robin_slice n j i files := by
  intro files
  induction files with
  | nil => intro bs i j hb hj; simp [distribute_files, round_robin_slice]
  | cons f rest ih =>
    intro bs i j hb hj
    rw [distribute_files,
      ih (bs.set (i % n) (bs.getD (i % n) [] ++ [f])) (i + 1) j
        (by rw [List.length_set]; exact hb) hj]
    by_cases hij : i % n = j
    · subst hij
      rw [getD_set_self bs (i % n) _ (by rw [hb]; exact hj)]
      rw [round_robin_slice, if_pos rfl]
      simp
    · rw [getD_set_ne bs (i % n) j _ hij]
      rw [round_robin_slice, if_neg hij]

lemma replicate_getD (n j : Nat) :
    (List.replicate n ([] : List FileSpec)).getD j [] = [] := by
  by_cases hj : j < n
  · rw [List.getD_eq_getElem _ _ (by simpa using hj)]
    simp
  · exact List.getD_eq_default _ _ (by simpa using Nat.le_of_not_lt hj)

lemma allocate_and_distribute_getD (n j : Nat) (hj : j < n)
    (files : List FileSpec) :
    (allocate_and_distribute n files).getD j []
      = round_robin_slice n j 0 files := by
  unfold allocate_and_distribute
  rw [distribute_files_getD n files (List.replicate n []) 0 j (by simp) hj]
  rw [replicate_getD]
  simp

lemma allocate_and_distribute_length (n : Nat) (files : List FileSpec) :
    (allocate_and_distribute n files).length = n := by
  unfold allocate_and_distribute
  rw [distribute_files_length]
  simp

lemma allocate_and_distribute_eq (n : Nat) (files : List FileSpec) :
    allocate_and_distribute n files
      = (List.range n).map (fun j => round_robin_slice n j 0 files) := by
  apply List.ext_getElem
  · rw [allocate_and_distribute_length]; simp
  · intro j h1 h2
    have hj : j < n := by rw [allocate_and_distribute_length] at h1; exact h1
    rw [← List.getD_eq_getElem _ ([] : List FileSpec) h1]
    rw [allocate_and_distribute_getD n j hj files]
    simp

lemma slice_eq_enumFrom (n j : Nat) :
    ∀ (files : List FileSpec) (i : Nat),
      round_robin_slice n j i files
        = ((List.enumFrom i files).filter (fun p => p.1 % n = j)).map
            Prod.snd := by
  intro files
  induction files with
  | nil => intro i; rfl
  | cons f rest ih =>
    intro i
    rw [round_robin_slice, List.enumFrom_cons]
    by_cases hij : i % n = j
    · rw [if_pos hij, List.filter_cons_of_pos (by simpa using hij),
        List.map_cons, ih (i + 1)]
    · rw [if_neg hij, List.filter_cons_of_neg (by simpa using hij)]
      exact ih (i + 1)

lemma round_robin_slice_sum (n : Nat) (hn : 0 < n) :
    ∀ (files : List FileSpec) (i : Nat),
      (∑ j ∈ Finset.range n,
        Multiset.ofList (round_robin_slice n j i files))
        = Multiset.ofList files := by
  intro files
  induction files with
  | nil => intro i; simp [round_robin_slice]
  | cons f rest ih =>
    intro i
    have hsplit : ∀ j,
        Multiset.ofList (round_robin_slice n j i (f :: rest))
          = (if i % n = j then ({f} : Multiset FileSpec) else 0)
            + Multiset.ofList (round_robin_slice n j (i + 1) rest) := by
      intro j
      rw [round_robin_slice]
      by_cases hij : i % n = j
      · rw [if_pos hij, if_pos hij, ← Multiset.cons_coe,
          Multiset.singleton_add]
      · rw [if_neg hij, if_neg hij, zero_add]
    simp only [hsplit]
    rw [Finset.sum_add_distrib, Finset.sum_ite_eq, ih (i + 1)]
    simp only [Finset.mem_range]
    rw [if_pos (Nat.mod_lt i hn), Multiset.singleton_add, Multiset.cons_coe]

lemma round_robin_slice_disjoint (n : Nat) (hn : 0 < n)
    (files : List FileSpec) (hnd : files.Nodup) (j k : Nat)
    (hj : j < n) (hk : k < n) (hjk : j ≠ k) (f : FileSpec)
    (hfj : f ∈ round_robin_slice n j 0 files) :
    f ∉ round_robin_slice n k 0 files := by
  intro hfk
  have hsum := round_robin_slice_sum n hn files 0
  have hcount : Multiset.count f (Multiset.ofList files) ≤ 1 :=
    Multiset.nodup_iff_count_le_one.mp (Multiset.coe_nodup.mpr hnd) f
  have hcj : 1 ≤ Multiset.count f
      (Multiset.ofList (round_robin_slice n j 0 files)) :=
    Multiset.one_le_count_iff_mem.mpr (by simpa using hfj)
  have hck : 1 ≤ Multiset.count f
      (Multiset.ofList (round_robin_slice n k 0 files)) :=
    Multiset.one_le_count_iff_mem.mpr (by simpa using hfk)
  have h1 : Multiset.count f (Multiset.ofList (round_robin_slice n k 0 files))
      ≤ ∑ jj ∈ (Finset.range n).erase j,
          Multiset.count f (Multiset.ofList (round_robin_slice n jj 0 files)) :=
    @Finset.single_le_sum Nat Nat _
      (fun jj => Multiset.count f
        (Multiset.ofList (round_robin_slice n jj 0 files)))
      ((Finset.range n).erase j) (fun _ _ => Nat.zero_le _) k
      (Finset.mem_erase.mpr ⟨Ne.symm hjk, Finset.mem_range.mpr hk⟩)
  have h2 : Multiset.count f (Multiset.ofList (round_robin_slice n j 0 files))
      + ∑ jj ∈ (Finset.range n).erase j,
          Multiset.count f (Multiset.ofList (round_robin_slice n jj 0 files))
      = ∑ jj ∈ Finset.range n,
          Multiset.count f (Multiset.ofList (round_robin_slice n jj 0 files)) :=
    Finset.add_sum_erase (Finset.range n)
      (fun jj => Multiset.count f
        (Multiset.ofList (round_robin_slice n jj 0 files)))
      (Finset.mem_range.mpr hj)
  have h3 : (∑ jj ∈ Finset.range n,
      Multiset.count f (Multiset.ofList (round_robin_slice n jj 0 files)))
      = Multiset.count f (Multiset.ofList files) := by
    rw [← Multiset.count_sum', hsum]
  omega

lemma sum_filter_nonempty (l : List (List FileSpec)) :
    ((l.filter (fun b => b.length > 0)).map
        (fun b => Multiset.ofList b)).sum
      = (l.map (fun b => Multiset.ofList b)).sum := by
  induction l with
  | nil => rfl
  | cons b t ih =>
    by_cases hb : b.length > 0
    · rw [List.filter_cons_of_pos (by simpa using hb)]
      rw [List.map_cons, List.sum_cons, List.map_cons, List.sum_cons, ih]
    · rw [List.filter_cons_of_neg (by simpa using hb)]
      have hbnil : b = [] := by
        cases b with
        | nil => rfl
        | cons x xs => simp at hb
      subst hbnil
      rw [List.map_cons, List.sum_cons, ih]
      simp

lemma bucketize_server_map_files (n : Nat) (host : String)
    (entry : ServerEntry) :
    (bucketize_server n host entry).map (fun bucket => bucket.files)
      = (allocate_and_distribute n entry.files).filter
          (fun l => l.length > 0) := by
  unfold bucketize_server
  generalize allocate_and_distribute n entry.files = ls
  induction ls with
  | nil => rfl
  | cons l t ih =>
    by_cases h : l.length > 0
    · rw [List.map_cons, List.filter_cons_of_pos (by simpa using h),
        List.filter_cons_of_pos (by simpa using h), List.map_cons, ih]
    · rw [List.map_cons, List.filter_cons_of_neg (by simpa using h),
        List.filter_cons_of_neg (by simpa using h), ih]

lemma sum_map_range_eq (n : Nat) (f : Nat → Multiset FileSpec) :
    ((List.range n).map f).sum = ∑ j ∈ Finset.range n, f j := by
  induction n with
  | zero => simp
  | succ m ih =>
    rw [List.range_succ, List.map_append, List.sum_append,
      Finset.sum_range_succ, ih]
    simp

end BucketizeLemmas

/-- C2: for every server file list and positive threads_per_host, the plan
builder allocates threads_per_host buckets and bucket j receives exactly
the files whose listing index is congruent to j, in listing order; after
the empty buckets are trimmed every bucket of the plan is non-empty, the
multiset union of the buckets files equals the server file list, and for a
duplicate-free file list no file appears in two buckets. -/
theorem c2_round_robin_partition (threads_per_host : Nat) (host : String)
    (entry : ServerEntry) (hn : 0 < threads_per_host) :
    (allocate_and_distribute threads_per_host entry.files).length
        = threads_per_host ∧
    (∀ j, j < threads_per_host →
      (allocate_and_distribute threads_per_host entry.files).getD j []
        = ((entry.files.enum.filter
            (fun p => p.1 % threads_per_host = j)).map Prod.snd)) ∧
    (∀ bucket ∈ bucketize_server threads_per_host host entry,
      bucket.files ≠ []) ∧
    ((bucketize_server threads_per_host host entry).map
        (fun bucket => Multiset.ofList bucket.files)).sum
      = Multiset.ofList entry.files ∧
    (entry.files.Nodup →
      (bucketize_server threads_per_host host entry).Pairwise
        (fun b₁ b₂ => ∀ f, f ∈ b₁.files → f ∉ b₂.files)) := by
  refine ⟨allocate_and_distribute_length _ _, ?_, ?_, ?_, ?_⟩
  · intro j hj
    rw [allocate_and_distribute_getD threads_per_host j hj entry.files]
    rw [slice_eq_enumFrom threads_per_host j entry.files 0]
    rfl
  · intro bucket hb
    unfold bucketize_server at hb
    exact List.length_pos.mp (by simpa using List.of_mem_filter hb)
  · have hcomp : ((bucketize_server threads_per_host host entry).map
        (fun bucket => Multiset.ofList bucket.files)).sum
        = (((bucketize_server threads_per_host host entry).map
            (fun bucket => bucket.files)).map
              (fun b => Multiset.ofList b)).sum := by
      rw [List.map_map]
      rfl
    rw [hcomp, bucketize_server_map_files, sum_filter_nonempty,
      allocate_and_distribute_eq, List.map_map, sum_map_range_eq]
    exact round_robin_slice_sum threads_per_host hn entry.files 0
  · intro hnd
    have h0 : (List.range threads_per_host).Pairwise
        (fun j k => ∀ f, f ∈ round_robin_slice threads_per_host j 0 entry.files
          → f ∉ round_robin_slice threads_per_host k 0 entry.files) := by
      refine List.Pairwise.imp_of_mem ?_ (List.pairwise_lt_range threads_per_host)
      intro j k hjm hkm hlt f hfj
      exact round_robin_slice_disjoint threads_per_host hn entry.files hnd j k
        (List.mem_range.mp hjm) (List.mem_range.mp hkm) (Nat.ne_of_lt hlt)
        f hfj
    have h1 : (allocate_and_distribute threads_per_host entry.files).Pairwise
        (fun l₁ l₂ => ∀ f, f ∈ l₁ → f ∉ l₂) := by
      rw [allocate_and_distribute_eq, List.pairwise_map]
      exact h0
    have h2 : ((allocate_and_distribute threads_per_host entry.files).map
        (fun files => Bucket.mk host entry.retrieve_method files)).Pairwise
        (fun b₁ b₂ => ∀ f, f ∈ b₁.files → f ∉ b₂.files) := by
      rw [List.pairwise_map]
      exact h1
    exact h2.filter _

/-- Witness for C2 at threads_per_host 2 over a concrete three-file server
entry. -/
theorem c2_round_robin_partition_witness :
    0 < 2 ∧
    ((allocate_and_distribute 2 sample_entry.files).length = 2 ∧
     (∀ j, j < 2 →
       (allocate_and_distribute 2 sample_entry.files).getD j []
         = ((sample_entry.files.enum.filter
             (fun p => p.1 % 2 = j)).map Prod.snd)) ∧
     (∀ bucket ∈ bucketize_server 2 "nm01:7777" sample_entry,
       bucket.files ≠ []) ∧
     ((bucketize_server 2 "nm01:7777" sample_entry).map
         (fun bucket => Multiset.ofList bucket.files)).sum
       = Multiset.ofList sample_entry.files ∧
     (sample_entry.files.Nodup →
       (bucketize_server 2 "nm01:7777" sample_entry).Pairwise
         (fun b₁ b₂ => ∀ f, f ∈ b₁.files → f ∉ b₂.files))) :=
  ⟨by decide, c2_round_robin_partition 2 "nm01:7777" sample_entry (by decide)⟩

end Yoink
